import Mathlib

/-!
Verification of the FeReader viewer core (`src/main.py`).

The viewer state of `FeReaderWindow` is embedded as an explicit record and
each UI callback becomes a pure state-to-state function translated from the
Python source.  Python machine integers are `Int`, Python floats are
modelled as rationals, and the outcome of the render engine's loaders
(which live outside `src/main.py`) enters the `open_file` embedding as an
explicit argument.
-/

namespace FeReader

/-- Truncation toward zero, the semantics of the Python builtin `int()`
applied to a float value in `src/main.py`. -/
def py_int (x : ℚ) : Int := if x < 0 then ⌈x⌉ else ⌊x⌋

/-- The viewer state of `FeReaderWindow` (src/main.py).  The fields
`current_book_title`, `current_index`, `current_font_size`, `current_zoom`,
`base_font_size`, `view_mode`, `view_orientation` and
`continuous_needs_build` are the attributes assigned in `__init__`
(lines 189-197; `continuous_needs_build` embeds the attribute named
with a leading underscore there); `book_type` and `page_count` stand for
`self.renderer.book_type` and `len(self.renderer.pages)` of the render
engine the window delegates to. -/
structure ViewerState where
  current_book_title : String
  current_index : Int
  current_font_size : Int
  current_zoom : ℚ
  base_font_size : Int
  view_mode : String
  view_orientation : String
  book_type : String
  page_count : Nat
  continuous_needs_build : Bool
deriving DecidableEq

/-- `FeReaderWindow.go_prev` (src/main.py lines 384-388): no-op when the
page list is empty, otherwise step back by 2 in pdf/horizontal mode and by
1 otherwise, bounded below by 0. -/
def go_prev (s : ViewerState) : ViewerState :=
  if s.page_count = 0 then s
  else
    let step : Int :=
      if s.book_type = "pdf" ∧ s.view_orientation = "horizontal" then 2 else 1
    { s with current_index := max 0 (s.current_index - step) }

/-- `FeReaderWindow.go_next` (src/main.py lines 390-397): no-op when the
page list is empty, otherwise step forward by 2 in pdf/horizontal mode and
by 1 otherwise, bounded above by `len(pages) - 1`, decremented by one in
pdf/horizontal mode when that limit is odd. -/
def go_next (s : ViewerState) : ViewerState :=
  if s.page_count = 0 then s
  else
    let step : Int :=
      if s.book_type = "pdf" ∧ s.view_orientation = "horizontal" then 2 else 1
    let limit0 : Int := (s.page_count : Int) - 1
    let limit : Int :=
      if s.book_type = "pdf" ∧ s.view_orientation = "horizontal" ∧ limit0 % 2 ≠ 0
      then limit0 - 1 else limit0
    { s with current_index := min limit (s.current_index + step) }

/-- `FeReaderWindow.zoom_in` (src/main.py lines 399-404). -/
def zoom_in (s : ViewerState) : ViewerState :=
  if s.book_type = "pdf" then
    { s with current_zoom := min 5 (s.current_zoom + 1/10) }
  else
    { s with current_font_size := min 60 (s.current_font_size + 2) }

/-- `FeReaderWindow.zoom_out` (src/main.py lines 406-411). -/
def zoom_out (s : ViewerState) : ViewerState :=
  if s.book_type = "pdf" then
    { s with current_zoom := max (1/10) (s.current_zoom - 1/10) }
  else
    { s with current_font_size := max 8 (s.current_font_size - 2) }

/-- `FeReaderWindow.zoom_label_clicked` (src/main.py lines 413-418).
`val` and `ok` are the results of `QInputDialog.getInt(self, "Zoom",
"Percent:", int(self.current_zoom*100), 50, 300)`; the dialog only accepts
values between its bounds 50 and 300.  Note the markup branch truncates
with the Python builtin `int()` and neither branch clamps. -/
def zoom_label_clicked (s : ViewerState) (val : Int) (ok : Bool) : ViewerState :=
  if ok then
    if s.book_type = "pdf" then
      { s with current_zoom := (val : ℚ) / 100 }
    else
      { s with current_font_size :=
          py_int ((s.base_font_size : ℚ) * ((val : ℚ) / 100)) }
  else s

/-- `FeReaderWindow.set_view_orientation` (src/main.py lines 420-424);
the menu-check bookkeeping has no bearing on the embedded state. -/
def set_view_orientation (s : ViewerState) (mode : String) : ViewerState :=
  { s with view_orientation := mode }

/-- The integer percentage computed by `FeReaderWindow._update_zoom_label`
(src/main.py lines 431-435) and shown as the zoom-label text. -/
def zoom_label_percent (s : ViewerState) : Int :=
  if s.book_type = "pdf" then py_int (s.current_zoom * 100)
  else py_int ((s.current_font_size : ℚ) / (s.base_font_size : ℚ) * 100)

/-- The load-error taxonomy of the spec (section 7) used to tag a loader
failure surfaced to `open_file`'s `except` clause. -/
inductive LoadError where
  | corrupt
  | authFailed
  | cancelled
  | ioFailure
deriving DecidableEq

/-- Outcome of a render-engine loader call (`renderer.load_pdf` /
`renderer.load_epub`, code outside src/main.py): success with a page
count, or a raised load error. -/
inductive LoadResult where
  | ok (page_count : Nat)
  | err (e : LoadError)
deriving DecidableEq

/-- Observable outcome of `FeReaderWindow.open_file`: the success path
completed, an exception was caught and shown in a message box, or the
function returned silently without doing anything. -/
inductive OpenReport where
  | opened
  | errorShown (e : LoadError)
  | silentReturn
deriving DecidableEq

/-- `FeReaderWindow.open_file` (src/main.py lines 336-356).  `ext` stands
for `os.path.splitext(path)[1].lower()` and `basename` for
`os.path.basename(path)`; the outcomes of `renderer.load_pdf` and
`renderer.load_epub` (code outside src/main.py) enter as the `load_pdf`
and `load_epub` arguments, and the value of `renderer.get_initial_zoom`
as `initial_zoom`.  A loader error reaches the `except` clause, which
shows the message and leaves every attribute untouched; an extension
other than `.pdf`/`.epub` hits the bare `return` in the `else` branch. -/
def open_file (s : ViewerState) (ext basename : String)
    (load_pdf load_epub : LoadResult) (initial_zoom : ℚ) :
    ViewerState × OpenReport :=
  if ext = ".pdf" then
    match load_pdf with
    | .err e => (s, .errorShown e)
    | .ok n =>
        ({ s with book_type := "pdf", page_count := n,
                  current_zoom := initial_zoom,
                  current_book_title := basename, current_index := 0 },
         .opened)
  else if ext = ".epub" then
    match load_epub with
    | .err e => (s, .errorShown e)
    | .ok n =>
        ({ s with book_type := "epub", page_count := n,
                  current_font_size := s.base_font_size,
                  current_book_title := basename, current_index := 0 },
         .opened)
  else (s, .silentReturn)

/-- Modelled from the spec: the continuous-layout cache routine
`ensure_built` is not part of src/ (it belongs to the render engine /
continuous-mode variant the window delegates to).  Spec section 4.6:
return the cache unchanged when it was already built at the current scale
and the dirty flag is clear; otherwise rebuild the whole sequence at the
current scale, which clears the dirty flag.  The cache is abstracted to
the scale it was built at (`none` = empty); the Boolean result records
whether a rebuild (re-render) happened. -/
def ensure_built (s : ViewerState) (cache : Option ℚ) :
    ViewerState × Option ℚ × Bool :=
  if cache = some s.current_zoom ∧ s.continuous_needs_build = false then
    (s, cache, false)
  else
    ({ s with continuous_needs_build := false }, some s.current_zoom, true)

/-- A navigation command: the `prev()` / `next()` user commands of the
display-shell boundary. -/
inductive NavCmd where
  | prevCmd
  | nextCmd
deriving DecidableEq

/-- One navigation command applied to the viewer state. -/
def navStep (s : ViewerState) : NavCmd → ViewerState
  | .prevCmd => go_prev s
  | .nextCmd => go_next s

/-- A whole sequence of `prev()`/`next()` commands applied in order. -/
def runNav (s : ViewerState) (cmds : List NavCmd) : ViewerState :=
  cmds.foldl navStep s

/-- A concrete viewer state used to instantiate theorems: a five-page pdf
document open in vertical single-page mode at 100 percent zoom. -/
def sampleState : ViewerState :=
  { current_book_title := "Untitled"
    current_index := 0
    current_font_size := 16
    current_zoom := 1
    base_font_size := 16
    view_mode := "single"
    view_orientation := "vertical"
    book_type := "pdf"
    page_count := 5
    continuous_needs_build := true }

/-- The sample state in horizontal (two-page spread) orientation. -/
def spreadState : ViewerState :=
  { sampleState with view_orientation := "horizontal" }

/-- The sample state holding a markup document with the smallest
configurable base font size (the settings dialog accepts 8 to 48). -/
def epubSmallState : ViewerState :=
  { sampleState with book_type := "epub", base_font_size := 8,
                     current_font_size := 8 }

/-- The sample state holding a markup document at base font size 16. -/
def epubBaseState : ViewerState :=
  { sampleState with book_type := "epub" }

/-- The sample state at the maximal raster zoom 5.0. -/
def maxZoomState : ViewerState :=
  { sampleState with current_zoom := 5 }

/-- Claim C9: when `page_count == 0` (no document loaded), `prev()` and
`next()` are no-ops: the state, in particular the current page index, is
left unchanged by either transition. -/
theorem nav_noop_when_empty (s : ViewerState) (h : s.page_count = 0) :
    go_prev s = s ∧ go_next s = s := by
  constructor <;> simp [go_prev, go_next, h]

/-- Witness for C9 at a concrete empty-document state. -/
theorem nav_noop_when_empty_instance :
    ({ sampleState with page_count := 0 } : ViewerState).page_count = 0 ∧
      go_prev { sampleState with page_count := 0 } =
        { sampleState with page_count := 0 } ∧
      go_next { sampleState with page_count := 0 } =
        { sampleState with page_count := 0 } :=
  ⟨rfl, (nav_noop_when_empty _ rfl).1, (nav_noop_when_empty _ rfl).2⟩

/-- Claim C8: the two zoom spaces are independent.  Every zoom mutation on
a raster (pdf) document leaves the markup font size unchanged, and every
zoom mutation on a markup (epub) document leaves the raster scale
unchanged. -/
theorem zoom_spaces_independent (s : ViewerState) (val : Int) (ok : Bool) :
    (s.book_type = "pdf" →
      (zoom_in s).current_font_size = s.current_font_size ∧
      (zoom_out s).current_font_size = s.current_font_size ∧
      (zoom_label_clicked s val ok).current_font_size = s.current_font_size) ∧
    (s.book_type = "epub" →
      (zoom_in s).current_zoom = s.current_zoom ∧
      (zoom_out s).current_zoom = s.current_zoom ∧
      (zoom_label_clicked s val ok).current_zoom = s.current_zoom) := by
  constructor <;> intro h <;> cases ok <;>
    simp [zoom_in, zoom_out, zoom_label_clicked, h]

/-- Witness for C8 at a concrete pdf state and a concrete epub state. -/
theorem zoom_spaces_independent_instance :
    sampleState.book_type = "pdf" ∧
      (zoom_in sampleState).current_font_size = sampleState.current_font_size ∧
      epubBaseState.book_type = "epub" ∧
      (zoom_in epubBaseState).current_zoom = epubBaseState.current_zoom :=
  ⟨rfl, ((zoom_spaces_independent sampleState 100 true).1 rfl).1,
    rfl, ((zoom_spaces_independent epubBaseState 100 true).2 rfl).1⟩

/-- Claim C2 (amended): for an extension other than `.pdf`/`.epub`,
`open_file` neither loads the file as either document kind nor modifies
any state, but it also raises no `UnsupportedFormat` error: it silently
returns. -/
theorem unsupported_extension_silent_noop (s : ViewerState)
    (ext basename : String) (lp le : LoadResult) (iz : ℚ)
    (h1 : ext ≠ ".pdf") (h2 : ext ≠ ".epub") :
    open_file s ext basename lp le iz = (s, OpenReport.silentReturn) := by
  simp [open_file, h1, h2]

/-- Witness for the amended C2 at the concrete extension `.txt`. -/
theorem unsupported_extension_silent_noop_instance :
    (".txt" ≠ ".pdf") ∧ (".txt" ≠ ".epub") ∧
      open_file sampleState ".txt" "notes.txt"
          (LoadResult.ok 3) (LoadResult.ok 3) 1 =
        (sampleState, OpenReport.silentReturn) :=
  ⟨by decide, by decide,
    unsupported_extension_silent_noop sampleState ".txt" "notes.txt"
      (LoadResult.ok 3) (LoadResult.ok 3) 1 (by decide) (by decide)⟩

/-- Counterexample to C2 as stated: opening `book.txt` does not fail with
an `UnsupportedFormat` error (no error is surfaced at all); the call
returns silently with the state unchanged. -/
theorem unsupported_extension_counterexample :
    open_file sampleState ".txt" "book.txt"
        (LoadResult.ok 3) (LoadResult.ok 3) 1 =
      (sampleState, OpenReport.silentReturn) := by
  decide

/-- Claim C4 (amended): no zoom mutation (`zoom_in`, `zoom_out`, set
percentage) modifies the continuous-layout dirty flag; the flag is
assigned only in `__init__`. -/
theorem zoom_preserves_dirty_flag (s : ViewerState) (val : Int) (ok : Bool) :
    (zoom_in s).continuous_needs_build = s.continuous_needs_build ∧
    (zoom_out s).continuous_needs_build = s.continuous_needs_build ∧
    (zoom_label_clicked s val ok).continuous_needs_build
      = s.continuous_needs_build := by
  refine ⟨?_, ?_, ?_⟩ <;>
    simp only [zoom_in, zoom_out, zoom_label_clicked] <;>
    split <;> first | rfl | (split <;> rfl)

/-- Counterexample to C4 as stated: starting from the sample state at
maximal zoom with the dirty flag still set, a first `ensure_built` clears
the flag; the following `zoom_in` (a zoom mutation, clamped at the bound)
leaves the flag clear, and the next `ensure_built` call does not
re-render. -/
theorem zoom_dirty_flag_counterexample :
    (ensure_built maxZoomState none).1.continuous_needs_build = false ∧
      (zoom_in (ensure_built maxZoomState none).1).continuous_needs_build
        = false ∧
      (ensure_built (zoom_in (ensure_built maxZoomState none).1)
          (ensure_built maxZoomState none).2.1).2.2 = false := by
  norm_num [ensure_built, zoom_in, maxZoomState, sampleState, min_def]

/-- Claim C5: whenever an open request fails with a load error (the
report is `errorShown`), the viewer state describing the previously
loaded document — current book title, current page index, current zoom
and current font size — is left unchanged; `open_file` never partially
replaces current state. -/
theorem open_error_preserves_state (s : ViewerState) (ext basename : String)
    (lp le : LoadResult) (iz : ℚ) (e : LoadError)
    (h : (open_file s ext basename lp le iz).2 = OpenReport.errorShown e) :
    (open_file s ext basename lp le iz).1.current_book_title
        = s.current_book_title ∧
      (open_file s ext basename lp le iz).1.current_index = s.current_index ∧
      (open_file s ext basename lp le iz).1.current_zoom = s.current_zoom ∧
      (open_file s ext basename lp le iz).1.current_font_size
        = s.current_font_size := by
  have hs : (open_file s ext basename lp le iz).1 = s := by
    unfold open_file at h ⊢
    split at h
    · split at h <;> simp_all
    · split at h
      · split at h <;> simp_all
      · simp_all
  rw [hs]
  exact ⟨rfl, rfl, rfl, rfl⟩

/-- Witness for C5: a corrupt pdf load leaves the sample state's title,
index, zoom and font size untouched. -/
theorem open_error_preserves_state_instance :
    (open_file sampleState ".pdf" "bad.pdf"
          (LoadResult.err LoadError.corrupt) (LoadResult.ok 3) 1).2
        = OpenReport.errorShown LoadError.corrupt ∧
      (open_file sampleState ".pdf" "bad.pdf"
          (LoadResult.err LoadError.corrupt) (LoadResult.ok 3) 1).1.current_book_title
        = sampleState.current_book_title ∧
      (open_file sampleState ".pdf" "bad.pdf"
          (LoadResult.err LoadError.corrupt) (LoadResult.ok 3) 1).1.current_index
        = sampleState.current_index :=
  ⟨rfl,
    (open_error_preserves_state sampleState ".pdf" "bad.pdf"
      (LoadResult.err LoadError.corrupt) (LoadResult.ok 3) 1
      LoadError.corrupt rfl).1,
    (open_error_preserves_state sampleState ".pdf" "bad.pdf"
      (LoadResult.err LoadError.corrupt) (LoadResult.ok 3) 1
      LoadError.corrupt rfl).2.1⟩

/-- Claim C10: after every successful EPUB (markup) open the current font
size is reset to the configured `base_font_size`, so the zoom label for
the newly opened markup document reads 100 percent. -/
theorem epub_open_resets_font (s : ViewerState) (basename : String)
    (lp : LoadResult) (n : Nat) (iz : ℚ) (hb : 0 < s.base_font_size) :
    (open_file s ".epub" basename lp (LoadResult.ok n) iz).1.current_font_size
        = s.base_font_size ∧
      zoom_label_percent
        (open_file s ".epub" basename lp (LoadResult.ok n) iz).1 = 100 := by
  have hb0 : ((s.base_font_size : ℚ)) ≠ 0 := by
    exact_mod_cast hb.ne'
  have h2 : ((s.base_font_size : ℚ)) / (s.base_font_size : ℚ) = 1 :=
    div_self hb0
  have h1 : (open_file s ".epub" basename lp (LoadResult.ok n) iz).1 =
      { s with book_type := "epub", page_count := n,
               current_font_size := s.base_font_size,
               current_book_title := basename, current_index := 0 } := by
    simp [open_file]
  rw [h1]
  refine ⟨rfl, ?_⟩
  norm_num [zoom_label_percent, py_int, h2]
  exact fun hx => absurd hx (by decide)

/-- Witness for C10 at the sample state (base font size 16 > 0). -/
theorem epub_open_resets_font_instance :
    0 < sampleState.base_font_size ∧
      (open_file sampleState ".epub" "book.epub"
          (LoadResult.ok 3) (LoadResult.ok 7) 1).1.current_font_size
        = sampleState.base_font_size ∧
      zoom_label_percent
        (open_file sampleState ".epub" "book.epub"
          (LoadResult.ok 3) (LoadResult.ok 7) 1).1 = 100 :=
  ⟨by decide,
    (epub_open_resets_font sampleState "book.epub"
      (LoadResult.ok 3) 7 1 (by decide)).1,
    (epub_open_resets_font sampleState "book.epub"
      (LoadResult.ok 3) 7 1 (by decide)).2⟩

/-- Claim C6: on an open document, `prev()` sets the index to
`max(lower_bound, index - step)` and `next()` to
`min(upper_bound, index + step)`, where `step = 2` and the upper bound is
the last even index not above `page_count - 1` exactly when the document
is raster (pdf) and the orientation is horizontal (spread), and otherwise
`step = 1` with bounds `[0, page_count - 1]`. -/
theorem nav_step_formula (s : ViewerState) (h : 1 ≤ s.page_count) :
    ((s.book_type = "pdf" ∧ s.view_orientation = "horizontal") →
      (go_prev s).current_index = max 0 (s.current_index - 2) ∧
      (go_next s).current_index =
        min (((s.page_count : Int) - 1) - ((s.page_count : Int) - 1) % 2)
          (s.current_index + 2)) ∧
    (¬ (s.book_type = "pdf" ∧ s.view_orientation = "horizontal") →
      (go_prev s).current_index = max 0 (s.current_index - 1) ∧
      (go_next s).current_index =
        min ((s.page_count : Int) - 1) (s.current_index + 1)) := by
  have hpc : ¬ s.page_count = 0 := by omega
  constructor
  · intro hsp
    refine ⟨?_, ?_⟩
    · simp [go_prev, hpc, hsp.1, hsp.2]
    · rcases Int.emod_two_eq_zero_or_one ((s.page_count : Int) - 1) with hodd | hodd <;>
        simp [go_next, hpc, hsp.1, hsp.2, hodd]
  · intro hsp
    refine ⟨?_, ?_⟩
    · simp [go_prev, hpc, hsp]
    · have hnc : ¬ (s.book_type = "pdf" ∧ s.view_orientation = "horizontal" ∧
          ((s.page_count : Int) - 1) % 2 = 1) := fun hc => hsp ⟨hc.1, hc.2.1⟩
      simp [go_next, hpc, hsp, hnc]

/-- Witness for C6 in spread mode: five pages, horizontal pdf, both
step formulas at the concrete spread state. -/
theorem nav_step_formula_instance :
    1 ≤ spreadState.page_count ∧
      (spreadState.book_type = "pdf" ∧
        spreadState.view_orientation = "horizontal") ∧
      (go_prev spreadState).current_index
        = max 0 (spreadState.current_index - 2) ∧
      (go_next spreadState).current_index =
        min (((spreadState.page_count : Int) - 1)
            - ((spreadState.page_count : Int) - 1) % 2)
          (spreadState.current_index + 2) :=
  ⟨by decide, ⟨rfl, rfl⟩,
    ((nav_step_formula spreadState (by decide)).1 ⟨rfl, rfl⟩).1,
    ((nav_step_formula spreadState (by decide)).1 ⟨rfl, rfl⟩).2⟩

/-- One navigation step preserves the page count, the document kind and
the orientation. -/
theorem navStep_frame (s : ViewerState) (c : NavCmd) :
    (navStep s c).page_count = s.page_count ∧
      (navStep s c).book_type = s.book_type ∧
      (navStep s c).view_orientation = s.view_orientation := by
  cases c <;> simp only [navStep, go_prev, go_next] <;> split <;>
    exact ⟨rfl, rfl, rfl⟩

/-- One navigation step preserves the cursor invariant: the index stays
inside `[0, page_count)` and stays even in spread mode. -/
theorem navStep_inv (s : ViewerState) (c : NavCmd)
    (h1 : 0 ≤ s.current_index) (h2 : s.current_index < (s.page_count : Int))
    (h3 : s.book_type = "pdf" ∧ s.view_orientation = "horizontal" →
      s.current_index % 2 = 0) :
    0 ≤ (navStep s c).current_index ∧
      (navStep s c).current_index < (s.page_count : Int) ∧
      (s.book_type = "pdf" ∧ s.view_orientation = "horizontal" →
        (navStep s c).current_index % 2 = 0) := by
  by_cases hpc : s.page_count = 0
  · exfalso
    omega
  · by_cases hsp : s.book_type = "pdf" ∧ s.view_orientation = "horizontal"
    · have he := h3 hsp
      cases c
      · simp [navStep, go_prev, hpc, hsp.1, hsp.2]
        omega
      · rcases Int.emod_two_eq_zero_or_one ((s.page_count : Int) - 1) with hodd | hodd <;>
          simp [navStep, go_next, hpc, hsp.1, hsp.2, hodd] <;> omega
    · cases c
      · simp [navStep, go_prev, hpc, hsp]
        omega
      · have hnc : ¬ (s.book_type = "pdf" ∧ s.view_orientation = "horizontal" ∧
            ((s.page_count : Int) - 1) % 2 = 1) := fun hc => hsp ⟨hc.1, hc.2.1⟩
        simp [navStep, go_next, hpc, hsp, hnc]
        omega

/-- The cursor invariant is preserved by any sequence of navigation
commands. -/
theorem runNav_inv (cmds : List NavCmd) : ∀ s : ViewerState,
    0 ≤ s.current_index → s.current_index < (s.page_count : Int) →
    (s.book_type = "pdf" ∧ s.view_orientation = "horizontal" →
      s.current_index % 2 = 0) →
    (0 ≤ (runNav s cmds).current_index ∧
      (runNav s cmds).current_index < (s.page_count : Int) ∧
      (s.book_type = "pdf" ∧ s.view_orientation = "horizontal" →
        (runNav s cmds).current_index % 2 = 0)) := by
  induction cmds with
  | nil => exact fun s h1 h2 h3 => ⟨h1, h2, h3⟩
  | cons c cs ih =>
      intro s h1 h2 h3
      have hstep := navStep_inv s c h1 h2 h3
      have hframe := navStep_frame s c
      have hrec := ih (navStep s c) hstep.1
        (by rw [hframe.1]; exact hstep.2.1)
        (by rw [hframe.2.1, hframe.2.2]; exact hstep.2.2)
      simp only [runNav, List.foldl_cons]
      simp only [runNav] at hrec
      refine ⟨hrec.1, ?_, ?_⟩
      · have hx := hrec.2.1
        rwa [hframe.1] at hx
      · intro hsp
        exact hrec.2.2 (by rw [hframe.2.1, hframe.2.2]; exact hsp)

/-- Claim C1: on an open document (index reset to 0 by `open_file`,
at least one page), every sequence of `prev()`/`next()` commands keeps the
current index inside `[0, page_count)`, and in spread mode (raster/pdf
document with horizontal orientation) the index is always even — hence
the last reachable even index never exceeds `page_count - 1`. -/
theorem nav_sequence_invariant (s : ViewerState) (cmds : List NavCmd)
    (h0 : s.current_index = 0) (hpc : 1 ≤ s.page_count) :
    0 ≤ (runNav s cmds).current_index ∧
      (runNav s cmds).current_index < (s.page_count : Int) ∧
      (s.book_type = "pdf" ∧ s.view_orientation = "horizontal" →
        (runNav s cmds).current_index % 2 = 0) := by
  apply runNav_inv
  · omega
  · omega
  · intro hsp
    omega

/-- Witness for C1 at the concrete spread state, running next, next,
prev. -/
theorem nav_sequence_invariant_instance :
    spreadState.current_index = 0 ∧ 1 ≤ spreadState.page_count ∧
      0 ≤ (runNav spreadState
          [NavCmd.nextCmd, NavCmd.nextCmd, NavCmd.prevCmd]).current_index ∧
      (runNav spreadState
          [NavCmd.nextCmd, NavCmd.nextCmd, NavCmd.prevCmd]).current_index
        < (spreadState.page_count : Int) ∧
      (runNav spreadState
          [NavCmd.nextCmd, NavCmd.nextCmd, NavCmd.prevCmd]).current_index % 2
        = 0 :=
  ⟨rfl, by decide,
    (nav_sequence_invariant spreadState
      [NavCmd.nextCmd, NavCmd.nextCmd, NavCmd.prevCmd] rfl (by decide)).1,
    (nav_sequence_invariant spreadState
      [NavCmd.nextCmd, NavCmd.nextCmd, NavCmd.prevCmd] rfl (by decide)).2.1,
    (nav_sequence_invariant spreadState
      [NavCmd.nextCmd, NavCmd.nextCmd, NavCmd.prevCmd] rfl (by decide)).2.2
      ⟨rfl, rfl⟩⟩

/-- Claim C3 (amended): for every percentage `p` accepted by the zoom
dialog (it only accepts `p` between 50 and 300), the set-percentage
operation sets `scale = p/100` for a raster document — a value that then
necessarily lies inside the `[0.1, 5.0]` zoom domain — and sets
`font_size = int(base_font_size * p/100)` (Python truncation, not
rounding) for a markup document, with no clamping applied to it. -/
theorem set_percent_formula (s : ViewerState) (p : Int)
    (hlo : 50 ≤ p) (hhi : p ≤ 300) :
    (s.book_type = "pdf" →
      (zoom_label_clicked s p true).current_zoom = (p : ℚ) / 100 ∧
      1/10 ≤ (zoom_label_clicked s p true).current_zoom ∧
      (zoom_label_clicked s p true).current_zoom ≤ 5) ∧
    (¬ s.book_type = "pdf" →
      (zoom_label_clicked s p true).current_font_size =
        py_int ((s.base_font_size : ℚ) * ((p : ℚ) / 100))) := by
  have hq1 : (50 : ℚ) ≤ (p : ℚ) := by exact_mod_cast hlo
  have hq2 : ((p : ℚ)) ≤ 300 := by exact_mod_cast hhi
  constructor
  · intro h
    simp [zoom_label_clicked, h]
    constructor <;> linarith
  · intro h
    simp [zoom_label_clicked, h]

/-- Witness for the amended C3 at the sample pdf state with p = 150. -/
theorem set_percent_formula_instance :
    (50 : Int) ≤ 150 ∧ (150 : Int) ≤ 300 ∧ sampleState.book_type = "pdf" ∧
      (zoom_label_clicked sampleState 150 true).current_zoom
        = ((150 : Int) : ℚ) / 100 :=
  ⟨by decide, by decide, rfl,
    ((set_percent_formula sampleState 150 (by decide) (by decide)).1 rfl).1⟩

/-- Counterexample to C3 as stated: with the smallest configurable base
font size 8 and the accepted percentage 50, the markup font size becomes
4, below the claimed lower clamp 8; and with base font size 16 and
percentage 55 the code produces 8 (truncation of 8.8) where rounding
would give 9 — so the result is neither rounded nor clamped. -/
theorem set_percent_unclamped_counterexample :
    (zoom_label_clicked epubSmallState 50 true).current_font_size = 4 ∧
      ¬ 8 ≤ (zoom_label_clicked epubSmallState 50 true).current_font_size ∧
      (zoom_label_clicked epubBaseState 55 true).current_font_size = 8 ∧
      round ((16 : ℚ) * (55 / 100)) = 9 := by
  have hne : ¬ (("epub" : String) = "pdf") := by decide
  have hs1 : (zoom_label_clicked epubSmallState 50 true).current_font_size
      = 4 := by
    have hfl : (⌊(4 : ℚ)⌋ : Int) = 4 := by
      rw [Int.floor_eq_iff]; norm_num
    norm_num [zoom_label_clicked, epubSmallState, sampleState, hne, py_int,
      hfl]
  have hs2 : (zoom_label_clicked epubBaseState 55 true).current_font_size
      = 8 := by
    have h44 : (16 : ℚ) * (55 / 100) = 44/5 := by norm_num
    have hf44 : (⌊(44/5 : ℚ)⌋ : Int) = 8 := by
      rw [Int.floor_eq_iff]; norm_num
    norm_num [zoom_label_clicked, epubBaseState, sampleState, hne, py_int,
      h44, hf44]
  refine ⟨hs1, by omega, hs2, ?_⟩
  rw [round_eq]
  rw [show ((16 : ℚ) * (55 / 100) + 1/2) = 93/10 by norm_num]
  rw [Int.floor_eq_iff]; norm_num

/-- The literal strings for the two document kinds differ. -/
theorem epub_ne_pdf : ¬ (("epub" : String) = "pdf") := by decide

/-- Iterating `zoom_in` on a pdf state acts on the zoom component as
iteration of the clamped raster step map. -/
theorem zoom_in_iterate_pdf (s : ViewerState) (h : s.book_type = "pdf") :
    ∀ n : Nat, (zoom_in^[n] s).book_type = "pdf" ∧
      (zoom_in^[n] s).current_zoom
        = (fun z : ℚ => min 5 (z + 1/10))^[n] s.current_zoom := by
  intro n
  induction n with
  | zero => exact ⟨h, rfl⟩
  | succ n ih =>
      rw [Function.iterate_succ_apply', Function.iterate_succ_apply']
      exact ⟨by simp [zoom_in, ih.1], by simp [zoom_in, ih.1, ih.2]⟩

/-- Iterating `zoom_out` on a pdf state acts on the zoom component as
iteration of the clamped raster step map. -/
theorem zoom_out_iterate_pdf (s : ViewerState) (h : s.book_type = "pdf") :
    ∀ n : Nat, (zoom_out^[n] s).book_type = "pdf" ∧
      (zoom_out^[n] s).current_zoom
        = (fun z : ℚ => max (1/10) (z - 1/10))^[n] s.current_zoom := by
  intro n
  induction n with
  | zero => exact ⟨h, rfl⟩
  | succ n ih =>
      rw [Function.iterate_succ_apply', Function.iterate_succ_apply']
      exact ⟨by simp [zoom_out, ih.1], by simp [zoom_out, ih.1, ih.2]⟩

/-- Iterating `zoom_in` on an epub state acts on the font component as
iteration of the clamped markup step map. -/
theorem zoom_in_iterate_epub (s : ViewerState) (h : s.book_type = "epub") :
    ∀ n : Nat, (zoom_in^[n] s).book_type = "epub" ∧
      (zoom_in^[n] s).current_font_size
        = (fun f : Int => min 60 (f + 2))^[n] s.current_font_size := by
  intro n
  induction n with
  | zero => exact ⟨h, rfl⟩
  | succ n ih =>
      rw [Function.iterate_succ_apply', Function.iterate_succ_apply']
      exact ⟨by simp [zoom_in, ih.1, epub_ne_pdf],
        by simp [zoom_in, ih.1, ih.2, epub_ne_pdf]⟩

/-- Iterating `zoom_out` on an epub state acts on the font component as
iteration of the clamped markup step map. -/
theorem zoom_out_iterate_epub (s : ViewerState) (h : s.book_type = "epub") :
    ∀ n : Nat, (zoom_out^[n] s).book_type = "epub" ∧
      (zoom_out^[n] s).current_font_size
        = (fun f : Int => max 8 (f - 2))^[n] s.current_font_size := by
  intro n
  induction n with
  | zero => exact ⟨h, rfl⟩
  | succ n ih =>
      rw [Function.iterate_succ_apply', Function.iterate_succ_apply']
      exact ⟨by simp [zoom_out, ih.1, epub_ne_pdf],
        by simp [zoom_out, ih.1, ih.2, epub_ne_pdf]⟩

/-- The clamped raster zoom-in map never exceeds the bound 5. -/
theorem qzoom_iter_le (z : ℚ) (hz : z ≤ 5) :
    ∀ n : Nat, (fun z : ℚ => min 5 (z + 1/10))^[n] z ≤ 5 := by
  intro n
  cases n with
  | zero => exact hz
  | succ n =>
      rw [Function.iterate_succ_apply']
      exact min_le_left _ _

/-- Enough iterations of the clamped raster zoom-in map reach exactly 5. -/
theorem qzoom_iter_eq (n : Nat) : ∀ z : ℚ, z ≤ 5 → 5 - (n : ℚ)/10 ≤ z →
    (fun z : ℚ => min 5 (z + 1/10))^[n] z = 5 := by
  induction n with
  | zero =>
      intro z h1 h2
      simp only [Function.iterate_zero, id_eq]
      push_cast at h2
      linarith
  | succ n ih =>
      intro z h1 h2
      rw [Function.iterate_succ_apply]
      apply ih
      · exact min_le_left _ _
      · apply le_min
        · have hn : (0 : ℚ) ≤ (n : ℚ)/10 := by positivity
          linarith
        · push_cast at h2 ⊢
          linarith

/-- Repeated raster zoom-in converges to the upper bound 5 and stays
there. -/
theorem qzoom_iter_converge (z : ℚ) (h1 : z ≤ 5) :
    ∃ N : Nat, ∀ m : Nat, N ≤ m →
      (fun z : ℚ => min 5 (z + 1/10))^[m] z = 5 := by
  refine ⟨(⌈(5 - z) * 10⌉).toNat, fun m hm => ?_⟩
  apply qzoom_iter_eq m z h1
  have hc1 : ((5 - z) * 10) ≤ ((⌈(5 - z) * 10⌉ : Int) : ℚ) := Int.le_ceil _
  have hc2 : ((⌈(5 - z) * 10⌉ : Int) : ℚ) ≤ ((⌈(5 - z) * 10⌉).toNat : ℚ) := by
    exact_mod_cast Int.self_le_toNat _
  have hm' : ((⌈(5 - z) * 10⌉).toNat : ℚ) ≤ (m : ℚ) := by exact_mod_cast hm
  linarith

/-- The clamped raster zoom-out map never drops below the bound 1/10. -/
theorem qzoomout_iter_ge (z : ℚ) (hz : 1/10 ≤ z) :
    ∀ n : Nat, 1/10 ≤ (fun z : ℚ => max (1/10) (z - 1/10))^[n] z := by
  intro n
  cases n with
  | zero => exact hz
  | succ n =>
      rw [Function.iterate_succ_apply']
      exact le_max_left _ _

/-- Enough iterations of the clamped raster zoom-out map reach exactly
1/10. -/
theorem qzoomout_iter_eq (n : Nat) : ∀ z : ℚ, 1/10 ≤ z →
    z ≤ 1/10 + (n : ℚ)/10 →
    (fun z : ℚ => max (1/10) (z - 1/10))^[n] z = 1/10 := by
  induction n with
  | zero =>
      intro z h1 h2
      simp only [Function.iterate_zero, id_eq]
      push_cast at h2
      linarith
  | succ n ih =>
      intro z h1 h2
      rw [Function.iterate_succ_apply]
      apply ih
      · exact le_max_left _ _
      · apply max_le
        · have hn : (0 : ℚ) ≤ (n : ℚ)/10 := by positivity
          linarith
        · push_cast at h2 ⊢
          linarith

/-- Repeated raster zoom-out converges to the lower bound 1/10 and stays
there. -/
theorem qzoomout_iter_converge (z : ℚ) (h1 : 1/10 ≤ z) :
    ∃ N : Nat, ∀ m : Nat, N ≤ m →
      (fun z : ℚ => max (1/10) (z - 1/10))^[m] z = 1/10 := by
  refine ⟨(⌈(z - 1/10) * 10⌉).toNat, fun m hm => ?_⟩
  apply qzoomout_iter_eq m z h1
  have hc1 : ((z - 1/10) * 10) ≤ ((⌈(z - 1/10) * 10⌉ : Int) : ℚ) :=
    Int.le_ceil _
  have hc2 : ((⌈(z - 1/10) * 10⌉ : Int) : ℚ)
      ≤ ((⌈(z - 1/10) * 10⌉).toNat : ℚ) := by
    exact_mod_cast Int.self_le_toNat _
  have hm' : ((⌈(z - 1/10) * 10⌉).toNat : ℚ) ≤ (m : ℚ) := by exact_mod_cast hm
  linarith

/-- The clamped markup zoom-in map never exceeds the bound 60. -/
theorem ifont_iter_le (f : Int) (hf : f ≤ 60) :
    ∀ n : Nat, (fun f : Int => min 60 (f + 2))^[n] f ≤ 60 := by
  intro n
  cases n with
  | zero => exact hf
  | succ n =>
      rw [Function.iterate_succ_apply']
      exact min_le_left _ _

/-- Enough iterations of the clamped markup zoom-in map reach exactly
60. -/
theorem ifont_iter_eq (n : Nat) : ∀ f : Int, f ≤ 60 →
    60 - 2 * (n : Int) ≤ f →
    (fun f : Int => min 60 (f + 2))^[n] f = 60 := by
  induction n with
  | zero =>
      intro f h1 h2
      simp only [Function.iterate_zero, id_eq]
      omega
  | succ n ih =>
      intro f h1 h2
      rw [Function.iterate_succ_apply]
      apply ih
      · exact min_le_left _ _
      · apply le_min <;> omega

/-- Repeated markup zoom-in converges to the upper bound 60 and stays
there. -/
theorem ifont_iter_converge (f : Int) (h1 : f ≤ 60) :
    ∃ N : Nat, ∀ m : Nat, N ≤ m →
      (fun f : Int => min 60 (f + 2))^[m] f = 60 := by
  refine ⟨(60 - f).toNat, fun m hm => ?_⟩
  apply ifont_iter_eq m f h1
  omega

/-- The clamped markup zoom-out map never drops below the bound 8. -/
theorem ifontout_iter_ge (f : Int) (hf : 8 ≤ f) :
    ∀ n : Nat, 8 ≤ (fun f : Int => max 8 (f - 2))^[n] f := by
  intro n
  cases n with
  | zero => exact hf
  | succ n =>
      rw [Function.iterate_succ_apply']
      exact le_max_left _ _

/-- Enough iterations of the clamped markup zoom-out map reach exactly
8. -/
theorem ifontout_iter_eq (n : Nat) : ∀ f : Int, 8 ≤ f →
    f ≤ 8 + 2 * (n : Int) →
    (fun f : Int => max 8 (f - 2))^[n] f = 8 := by
  induction n with
  | zero =>
      intro f h1 h2
      simp only [Function.iterate_zero, id_eq]
      omega
  | succ n ih =>
      intro f h1 h2
      rw [Function.iterate_succ_apply]
      apply ih
      · exact le_max_left _ _
      · apply max_le <;> omega

/-- Repeated markup zoom-out converges to the lower bound 8 and stays
there. -/
theorem ifontout_iter_converge (f : Int) (h1 : 8 ≤ f) :
    ∃ N : Nat, ∀ m : Nat, N ≤ m →
      (fun f : Int => max 8 (f - 2))^[m] f = 8 := by
  refine ⟨(f - 8).toNat, fun m hm => ?_⟩
  apply ifontout_iter_eq m f h1
  omega

/-- Claim C7: `zoom_in`/`zoom_out` apply a fixed step (1/10 in scale for
raster documents, 2 font-size units for markup documents) and clamp to
the domain bounds (scale at most 5 and at least 1/10, font size at most
60 and at least 8); starting inside the domain, repeated `zoom_in`
(respectively `zoom_out`) never exceeds the bound and converges to it. -/
theorem zoom_step_clamp_convergence (s : ViewerState) :
    (s.book_type = "pdf" →
      (zoom_in s).current_zoom = min 5 (s.current_zoom + 1/10) ∧
      (zoom_out s).current_zoom = max (1/10) (s.current_zoom - 1/10) ∧
      (s.current_zoom ≤ 5 →
        (∀ n : Nat, (zoom_in^[n] s).current_zoom ≤ 5) ∧
        ∃ N : Nat, ∀ m : Nat, N ≤ m → (zoom_in^[m] s).current_zoom = 5) ∧
      (1/10 ≤ s.current_zoom →
        (∀ n : Nat, 1/10 ≤ (zoom_out^[n] s).current_zoom) ∧
        ∃ N : Nat, ∀ m : Nat, N ≤ m →
          (zoom_out^[m] s).current_zoom = 1/10)) ∧
    (s.book_type = "epub" →
      (zoom_in s).current_font_size = min 60 (s.current_font_size + 2) ∧
      (zoom_out s).current_font_size = max 8 (s.current_font_size - 2) ∧
      (s.current_font_size ≤ 60 →
        (∀ n : Nat, (zoom_in^[n] s).current_font_size ≤ 60) ∧
        ∃ N : Nat, ∀ m : Nat, N ≤ m →
          (zoom_in^[m] s).current_font_size = 60) ∧
      (8 ≤ s.current_font_size →
        (∀ n : Nat, 8 ≤ (zoom_out^[n] s).current_font_size) ∧
        ∃ N : Nat, ∀ m : Nat, N ≤ m →
          (zoom_out^[m] s).current_font_size = 8)) := by
  constructor
  · intro h
    refine ⟨by simp [zoom_in, h], by simp [zoom_out, h], ?_, ?_⟩
    · intro hz
      constructor
      · intro n
        rw [(zoom_in_iterate_pdf s h n).2]
        exact qzoom_iter_le _ hz n
      · obtain ⟨N, hN⟩ := qzoom_iter_converge s.current_zoom hz
        exact ⟨N, fun m hm => by
          rw [(zoom_in_iterate_pdf s h m).2]; exact hN m hm⟩
    · intro hz
      constructor
      · intro n
        rw [(zoom_out_iterate_pdf s h n).2]
        exact qzoomout_iter_ge _ hz n
      · obtain ⟨N, hN⟩ := qzoomout_iter_converge s.current_zoom hz
        exact ⟨N, fun m hm => by
          rw [(zoom_out_iterate_pdf s h m).2]; exact hN m hm⟩
  · intro h
    refine ⟨by simp [zoom_in, h, epub_ne_pdf],
      by simp [zoom_out, h, epub_ne_pdf], ?_, ?_⟩
    · intro hf
      constructor
      · intro n
        rw [(zoom_in_iterate_epub s h n).2]
        exact ifont_iter_le _ hf n
      · obtain ⟨N, hN⟩ := ifont_iter_converge s.current_font_size hf
        exact ⟨N, fun m hm => by
          rw [(zoom_in_iterate_epub s h m).2]; exact hN m hm⟩
    · intro hf
      constructor
      · intro n
        rw [(zoom_out_iterate_epub s h n).2]
        exact ifontout_iter_ge _ hf n
      · obtain ⟨N, hN⟩ := ifontout_iter_converge s.current_font_size hf
        exact ⟨N, fun m hm => by
          rw [(zoom_out_iterate_epub s h m).2]; exact hN m hm⟩

/-- Witness for C7 at the sample pdf state and a concrete epub state. -/
theorem zoom_step_clamp_convergence_instance :
    sampleState.book_type = "pdf" ∧
      (zoom_in sampleState).current_zoom
        = min 5 (sampleState.current_zoom + 1/10) ∧
      (zoom_out sampleState).current_zoom
        = max (1/10) (sampleState.current_zoom - 1/10) ∧
      epubBaseState.book_type = "epub" ∧
      (zoom_in epubBaseState).current_font_size
        = min 60 (epubBaseState.current_font_size + 2) :=
  ⟨rfl, ((zoom_step_clamp_convergence sampleState).1 rfl).1,
    ((zoom_step_clamp_convergence sampleState).1 rfl).2.1,
    rfl, ((zoom_step_clamp_convergence epubBaseState).2 rfl).1⟩

end FeReader
